import Mathlib

/-!
Verification of the transmission-structure fragility model
(`reliability_model3_draft_18Mar2020.py`).

The development shallowly embeds the numeric core of the script:
  * the per-family design-life functions (`DLife_WoodSteel_*`),
  * the per-entry dispatch of the main loop for the STEEL material branch
    and for the UNKNOWN/OTHER material branch,
  * the strength-ratio / design-ratio calculation,
  * the capacity-distribution columns (`mean_*` / `stddev_*`),
  * the MCE corrosion-score table and the soil-corrosivity factor,
  * the probability-of-failure combination
    (`ComputeProbabilityFailureLogNorm`).

Real-valued quantities are modelled over `ℝ`.  Where IEEE-754 /
numpy-specific behaviour matters (division of a numpy scalar by zero) a
small explicit float model over `ℚ` is used, and where Python raises an
exception (pandas `.loc` on a missing label, `max` over mixed `str`/`int`,
`float` of a non-numeric string) the embedding returns an explicit
exception value.
-/

namespace ReliabilityModel

/-! ## Strength ratio (main loop, lines 538-545 / 638-645 / 728-735)

The per-component condition code read from the data frame is a float that
may be NaN; it is modelled as `Option ℚ` with `none` standing for NaN.
The three material branches contain three identical copies of this
computation. -/

/-- Strength ratio from a condition code, as computed in the main loop:
`1` for code `0` or NaN, `0.92` for code `2`, else `1 - (code - 1)/6`. -/
def strength_ratio (cd : Option ℚ) : ℚ :=
  match cd with
  | none => 1
  | some c => if c = 0 then 1 else if c = 2 then 0.92 else 1 - (c - 1) / 6

/-- Design ratio, a fixed constant `1` in the source (lines 548 / 648 / 738). -/
def design_ratio : ℚ := 1

/-! ## Design-life functions (source lines 84-229)

Each `DLife_WoodSteel_*` Python function receives the constants data frame
`df_reliability_calcs_constants` and a column label; `loc[i, entry]` is
modelled as `consts entry i` with `i : Fin 3` (row 0 = cov at age zero,
row 1 = cov at design life, row 2 = nominal design life).  Each function
returns the triple (adjustment, adjusted design life, cov). -/

/-- Result triple of a `DLife_WoodSteel_*` function. -/
structure DLifeOut where
  design_life_adjustment : ℝ
  design_life_adjusted : ℝ
  cov : ℝ

/-- Function `DLife_WoodSteel_Conductor` (source lines 84-103). -/
noncomputable def DLife_WoodSteel_Conductor (AGE_YEARS : ℝ)
    (consts : String → Fin 3 → ℝ) (pronto : String)
    (outage_density_red_factor wear_fatigue_red_factor
     splice_density_red_factor atmospheric_corrosivity_red_factor : ℝ) :
    DLifeOut :=
  let design_life_adjustment :=
    if outage_density_red_factor < 0 then
      (1 - Real.sqrt (wear_fatigue_red_factor ^ 2 +
        splice_density_red_factor ^ 2 +
        atmospheric_corrosivity_red_factor ^ 2)) *
        (1 - outage_density_red_factor)
    else
      1 - Real.sqrt (wear_fatigue_red_factor ^ 2 +
        splice_density_red_factor ^ 2 +
        atmospheric_corrosivity_red_factor ^ 2 +
        outage_density_red_factor ^ 2)
  let design_life_adjusted := consts pronto 2 * design_life_adjustment
  let cov := consts pronto 0 + (consts pronto 1 - consts pronto 0) *
    (AGE_YEARS ^ 2 / design_life_adjusted ^ 2)
  ⟨design_life_adjustment, design_life_adjusted, cov⟩

/-- Function `DLife_WoodSteel_Anchor` (source lines 106-124). -/
noncomputable def DLife_WoodSteel_Anchor (AGE_YEARS : ℝ)
    (consts : String → Fin 3 → ℝ) (entry : String)
    (outage_density_red_factor soil_corrosivity_red_factor : ℝ) : DLifeOut :=
  let design_life_adjustment :=
    if outage_density_red_factor < 0 then
      (1 - soil_corrosivity_red_factor) * (1 - outage_density_red_factor)
    else
      1 - Real.sqrt (soil_corrosivity_red_factor ^ 2 +
        outage_density_red_factor ^ 2)
  let design_life_adjusted := consts entry 2 * design_life_adjustment
  let cov := consts entry 0 + (consts entry 1 - consts entry 0) *
    (AGE_YEARS ^ 2 / design_life_adjusted ^ 2)
  ⟨design_life_adjustment, design_life_adjusted, cov⟩

/-- Function `DLife_WoodSteel_Guy` (source lines 126-144). -/
noncomputable def DLife_WoodSteel_Guy (AGE_YEARS : ℝ)
    (consts : String → Fin 3 → ℝ) (entry : String)
    (outage_density_red_factor atmospheric_corrosivity_red_factor : ℝ) :
    DLifeOut :=
  let design_life_adjustment :=
    if outage_density_red_factor < 0 then
      (1 - atmospheric_corrosivity_red_factor) *
        (1 - outage_density_red_factor)
    else
      1 - Real.sqrt (atmospheric_corrosivity_red_factor ^ 2 +
        outage_density_red_factor ^ 2)
  let design_life_adjusted := consts entry 2 * design_life_adjustment
  let cov := consts entry 0 + (consts entry 1 - consts entry 0) *
    (AGE_YEARS ^ 2 / design_life_adjusted ^ 2)
  ⟨design_life_adjustment, design_life_adjusted, cov⟩

/-- Function `DLife_WoodSteel_OGW` (source lines 146-165).  In the negative-outage
branch the source reads
`1-math.sqrt(soil**2 + atm**2)*(1-outage)`; by Python precedence the
`(1-outage)` factor multiplies only the square root, and that grouping is
reproduced here. -/
noncomputable def DLife_WoodSteel_OGW (AGE_YEARS : ℝ)
    (consts : String → Fin 3 → ℝ) (entry : String)
    (outage_density_red_factor atmospheric_corrosivity_red_factor
     soil_corrosivity_red_factor : ℝ) : DLifeOut :=
  let design_life_adjustment :=
    if outage_density_red_factor < 0 then
      1 - Real.sqrt (soil_corrosivity_red_factor ^ 2 +
        atmospheric_corrosivity_red_factor ^ 2) *
        (1 - outage_density_red_factor)
    else
      1 - Real.sqrt (soil_corrosivity_red_factor ^ 2 +
        atmospheric_corrosivity_red_factor ^ 2 +
        outage_density_red_factor ^ 2)
  let design_life_adjusted := consts entry 2 * design_life_adjustment
  let cov := consts entry 0 + (consts entry 1 - consts entry 0) *
    (AGE_YEARS ^ 2 / design_life_adjusted ^ 2)
  ⟨design_life_adjustment, design_life_adjusted, cov⟩

/-- Function `DLife_WoodSteel_HI` (source lines 167-186).  Same grouping remark as
for `DLife_WoodSteel_OGW`. -/
noncomputable def DLife_WoodSteel_HI (AGE_YEARS : ℝ)
    (consts : String → Fin 3 → ℝ) (entry : String)
    (outage_density_red_factor atmospheric_corrosivity_red_factor
     soil_corrosivity_red_factor : ℝ) : DLifeOut :=
  let design_life_adjustment :=
    if outage_density_red_factor < 0 then
      1 - Real.sqrt (soil_corrosivity_red_factor ^ 2 +
        atmospheric_corrosivity_red_factor ^ 2) *
        (1 - outage_density_red_factor)
    else
      1 - Real.sqrt (soil_corrosivity_red_factor ^ 2 +
        atmospheric_corrosivity_red_factor ^ 2 +
        outage_density_red_factor ^ 2)
  let design_life_adjusted := consts entry 2 * design_life_adjustment
  let cov := consts entry 0 + (consts entry 1 - consts entry 0) *
    (AGE_YEARS ^ 2 / design_life_adjusted ^ 2)
  ⟨design_life_adjustment, design_life_adjusted, cov⟩

/-- Function `DLife_WoodSteel_StructureFoundation` (source lines 188-208). -/
noncomputable def DLife_WoodSteel_StructureFoundation (AGE_YEARS : ℝ)
    (consts : String → Fin 3 → ℝ) (entry : String)
    (outage_density_red_factor atmospheric_corrosivity_red_factor
     wear_fatigue_red_factor soil_corrosivity_red_factor : ℝ) : DLifeOut :=
  let design_life_adjustment :=
    if outage_density_red_factor < 0 then
      (1 - Real.sqrt (wear_fatigue_red_factor ^ 2 +
        soil_corrosivity_red_factor ^ 2 +
        atmospheric_corrosivity_red_factor ^ 2)) *
        (1 - outage_density_red_factor)
    else
      1 - Real.sqrt (wear_fatigue_red_factor ^ 2 +
        soil_corrosivity_red_factor ^ 2 +
        atmospheric_corrosivity_red_factor ^ 2 +
        outage_density_red_factor ^ 2)
  let design_life_adjusted := consts entry 2 * design_life_adjustment
  let cov := consts entry 0 + (consts entry 1 - consts entry 0) *
    (AGE_YEARS ^ 2 / design_life_adjusted ^ 2)
  ⟨design_life_adjustment, design_life_adjusted, cov⟩

/-- Function `DLife_WoodSteel_AllOthers` (source lines 210-229). -/
noncomputable def DLife_WoodSteel_AllOthers (AGE_YEARS : ℝ)
    (consts : String → Fin 3 → ℝ) (entry : String)
    (outage_density_red_factor atmospheric_corrosivity_red_factor
     wear_fatigue_red_factor : ℝ) : DLifeOut :=
  let design_life_adjustment :=
    if outage_density_red_factor < 0 then
      (1 - Real.sqrt (wear_fatigue_red_factor ^ 2 +
        atmospheric_corrosivity_red_factor ^ 2)) *
        (1 - outage_density_red_factor)
    else
      1 - Real.sqrt (wear_fatigue_red_factor ^ 2 +
        atmospheric_corrosivity_red_factor ^ 2 +
        outage_density_red_factor ^ 2)
  let design_life_adjusted := consts entry 2 * design_life_adjustment
  let cov := consts entry 0 + (consts entry 1 - consts entry 0) *
    (AGE_YEARS ^ 2 / design_life_adjusted ^ 2)
  ⟨design_life_adjustment, design_life_adjusted, cov⟩

/-! ## Main-loop dispatch per material branch (source lines 471-741)

`steel_branch_dlife` mirrors the `MATERIAL_FLAG == "STEEL"` chain of
`if entry == ...` tests (lines 471-534); `unknown_branch_dlife` mirrors the
final `else` branch for UNKNOWN/OTHER materials (lines 652-723), whose own
comment reads "UNKNOWN and OTHER material types calculated as STEEL for
now".  Note the UNKNOWN/OTHER chain compares `entry == "GUY"` (line 677)
where the steel chain compares `entry == "GUY_CD"`; the comparison strings
are reproduced verbatim. -/

/-- Per-entry design-life computation of the STEEL material branch. -/
noncomputable def steel_branch_dlife (consts : String → Fin 3 → ℝ)
    (entry : String) (AGE_YEARS outage_density_red_factor
     wear_fatigue_red_factor splice_density_red_factor
     soil_corrosivity_red_factor atmospheric_corrosivity_red_factor : ℝ) :
    DLifeOut :=
  if entry = "CONDUCTOR_CD" then
    DLife_WoodSteel_Conductor AGE_YEARS consts entry
      outage_density_red_factor wear_fatigue_red_factor
      splice_density_red_factor atmospheric_corrosivity_red_factor
  else if entry = "ANCHOR_CD" then
    DLife_WoodSteel_Anchor AGE_YEARS consts entry
      outage_density_red_factor soil_corrosivity_red_factor
  else if entry = "GUY_CD" then
    DLife_WoodSteel_Guy AGE_YEARS consts entry
      outage_density_red_factor atmospheric_corrosivity_red_factor
  else if entry = "OGW_CD" then
    DLife_WoodSteel_OGW AGE_YEARS consts entry
      outage_density_red_factor atmospheric_corrosivity_red_factor
      soil_corrosivity_red_factor
  else if entry = "HARDWARE_INSUL_CD" then
    DLife_WoodSteel_HI AGE_YEARS consts entry
      outage_density_red_factor atmospheric_corrosivity_red_factor
      soil_corrosivity_red_factor
  else if entry = "FOUNDATION_CD" then
    DLife_WoodSteel_StructureFoundation AGE_YEARS consts entry
      outage_density_red_factor atmospheric_corrosivity_red_factor
      wear_fatigue_red_factor soil_corrosivity_red_factor
  else
    DLife_WoodSteel_AllOthers AGE_YEARS consts entry
      outage_density_red_factor atmospheric_corrosivity_red_factor
      wear_fatigue_red_factor

/-- Per-entry design-life computation of the UNKNOWN/OTHER material branch
(the final `else` of the main loop, source lines 652-723). -/
noncomputable def unknown_branch_dlife (consts : String → Fin 3 → ℝ)
    (entry : String) (AGE_YEARS outage_density_red_factor
     wear_fatigue_red_factor splice_density_red_factor
     soil_corrosivity_red_factor atmospheric_corrosivity_red_factor : ℝ) :
    DLifeOut :=
  if entry = "CONDUCTOR_CD" then
    DLife_WoodSteel_Conductor AGE_YEARS consts entry
      outage_density_red_factor wear_fatigue_red_factor
      splice_density_red_factor atmospheric_corrosivity_red_factor
  else if entry = "ANCHOR_CD" then
    DLife_WoodSteel_Anchor AGE_YEARS consts entry
      outage_density_red_factor soil_corrosivity_red_factor
  else if entry = "GUY" then
    DLife_WoodSteel_Guy AGE_YEARS consts entry
      outage_density_red_factor atmospheric_corrosivity_red_factor
  else if entry = "OGW_CD" then
    DLife_WoodSteel_OGW AGE_YEARS consts entry
      outage_density_red_factor atmospheric_corrosivity_red_factor
      soil_corrosivity_red_factor
  else if entry = "FOUNDATION_CD" then
    DLife_WoodSteel_StructureFoundation AGE_YEARS consts entry
      outage_density_red_factor atmospheric_corrosivity_red_factor
      wear_fatigue_red_factor soil_corrosivity_red_factor
  else if entry = "HARDWARE_INSUL_CD" then
    DLife_WoodSteel_HI AGE_YEARS consts entry
      outage_density_red_factor atmospheric_corrosivity_red_factor
      soil_corrosivity_red_factor
  else
    DLife_WoodSteel_AllOthers AGE_YEARS consts entry
      outage_density_red_factor atmospheric_corrosivity_red_factor
      wear_fatigue_red_factor

/-- The design-life adjustment described by the specification for the OGW
and HARDWARE_INSULATORS families: in the negative-outage branch the
`(1 - outage)` multiplier is applied to the whole quantity
`(1 - RSS(soil, atm))`. -/
noncomputable def spec_adjustment_OGW_HI
    (outage_density_red_factor atmospheric_corrosivity_red_factor
     soil_corrosivity_red_factor : ℝ) : ℝ :=
  if outage_density_red_factor < 0 then
    (1 - Real.sqrt (soil_corrosivity_red_factor ^ 2 +
      atmospheric_corrosivity_red_factor ^ 2)) *
      (1 - outage_density_red_factor)
  else
    1 - Real.sqrt (soil_corrosivity_red_factor ^ 2 +
      atmospheric_corrosivity_red_factor ^ 2 +
      outage_density_red_factor ^ 2)

/-! ## Numpy float semantics of the cov formula

The constants looked up through `df_reliability_calcs_constants.loc[i,entry]`
are numpy scalars, so `AGE_YEARS**2/design_life_adjusted**2` with a zero
adjusted design life evaluates under numpy semantics: division of a
positive finite value by `0.0` yields `inf` (with a warning, not an
exception), `negative/0.0` yields `-inf`, and `0.0/0.0` yields `nan`.
`NpFloat` models exactly the values reachable by the cov expression. -/

/-- A numpy floating-point value: finite (modelled exactly as a rational),
positive or negative infinity, or NaN. -/
inductive NpFloat where
  | fin (x : ℚ)
  | pinf
  | ninf
  | nan
  deriving DecidableEq

/-- Numpy division of finite scalars: `x/0.0` is `inf`, `-inf` or `nan`
according to the sign of `x`. -/
def npDiv (a b : ℚ) : NpFloat :=
  if b = 0 then (if 0 < a then .pinf else if a < 0 then .ninf else .nan)
  else .fin (a / b)

/-- Numpy multiplication of a finite scalar with an `NpFloat`
(`0 * inf = nan`). -/
def npMulFin (c : ℚ) : NpFloat → NpFloat
  | .fin x => .fin (c * x)
  | .pinf => if 0 < c then .pinf else if c < 0 then .ninf else .nan
  | .ninf => if 0 < c then .ninf else if c < 0 then .pinf else .nan
  | .nan => .nan

/-- Numpy addition of a finite scalar with an `NpFloat`. -/
def npAddFin (c : ℚ) : NpFloat → NpFloat
  | .fin x => .fin (c + x)
  | .pinf => .pinf
  | .ninf => .ninf
  | .nan => .nan

/-- The cov expression of every `DLife_WoodSteel_*` function,
`loc[0,entry] + (loc[1,entry] - loc[0,entry])*(AGE_YEARS**2/design_life_adjusted**2)`
(e.g. source line 101), under numpy float semantics. -/
def cov_float (c0 c1 AGE_YEARS design_life_adjusted : ℚ) : NpFloat :=
  npAddFin c0 (npMulFin (c1 - c0) (npDiv (AGE_YEARS ^ 2) (design_life_adjusted ^ 2)))

/-! ## MCE corrosion-score table and soil-corrosivity factor
(source lines 270-344 and 417-432)

A cell of `df_MCE_corrosion_scores` holds either a numeric score or the
string sentinel `"ERROR_MCE_N/A"`.  The indexed data frame is modelled as
an association list over the `ROW_LABELS` column; `.loc[label, col]` on a
label absent from the index raises a pandas `KeyError`, modelled as
`none` from the lookup and turned into an explicit exception value by the
factor computation. -/

/-- One cell of the MCE corrosion-score table: a numeric score or the
`"ERROR_MCE_N/A"` sentinel string. -/
inductive MCECell where
  | val (q : ℚ)
  | na
  deriving DecidableEq

/-- Outcome of a fragment of Python code: a value, or an uncaught
exception identified by its class name. -/
inductive PyResult (α : Type) where
  | ok (a : α)
  | exn (e : String)
  deriving DecidableEq

/-- The `AGRICULTURE` column of `df_MCE_corrosion_scores`, keyed by
`ROW_LABELS` (source lines 271-284 and 302-308). -/
def AGRICULTURE_column : List (String × MCECell) :=
  [("heavy", .na), ("intermediate", .na), ("light", .na),
   ("Estuarine and Marine Deepwater", .na),
   ("Estuarine and Marine Wetland", .na),
   ("Freshwater Emergent Wetland", .na),
   ("Freshwater Forested/Shrub Wetland", .na),
   ("Freshwater Pond", .na), ("Lake", .na), ("Riverine", .na),
   ("other", .na), ("Blank", .na), ("None", .na),
   ("Farmland of Local Importance", .val 2),
   ("Farmland of Statewide Importance", .val 2),
   ("Grazing Land", .val 1),
   ("Irrigated Farmland (interim)", .val 2),
   ("Local Potential", .val 1),
   ("Nonagricultural and Natural Vegetation", .val 1),
   ("Not Mapped", .val 1), ("Other Land", .val 1),
   ("Prime Farmland", .val 2),
   ("Rural Residential and Rural Commercial", .val 2),
   ("Unique Farmland", .val 1),
   ("Urban and Built-up Land", .val 0), ("Water", .val 2),
   ("Confined Animal Agriculture", .val 2),
   ("moderate", .na), ("severe", .na),
   ("Lower 1/3 of PG&E wind speed", .na),
   ("Middle 1/3 of PG&E wind speed", .na),
   ("Top 1/3 of PG&E wind speed", .na),
   ("High", .na), ("Med", .na), ("Low", .na),
   ("Vacant or Disturbed Land", .val 0),
   ("Rural Residential Land", .val 0),
   ("Farmland of Local Potential", .val 0),
   ("Semi-agricultural and Rural Commercial Land", .val 0),
   ("Water Area", .val 0)]

/-- The `WETLAND_TYPE` column of `df_MCE_corrosion_scores`, keyed by
`ROW_LABELS` (source lines 271-284 and 294-301). -/
def WETLAND_TYPE_column : List (String × MCECell) :=
  [("heavy", .na), ("intermediate", .na), ("light", .na),
   ("Estuarine and Marine Deepwater", .val 2),
   ("Estuarine and Marine Wetland", .val 2),
   ("Freshwater Emergent Wetland", .val 1),
   ("Freshwater Forested/Shrub Wetland", .val 1),
   ("Freshwater Pond", .val 1), ("Lake", .val 1), ("Riverine", .val 1),
   ("other", .val 1), ("Blank", .val 0), ("None", .val 0),
   ("Farmland of Local Importance", .na),
   ("Farmland of Statewide Importance", .na),
   ("Grazing Land", .na),
   ("Irrigated Farmland (interim)", .na),
   ("Local Potential", .na),
   ("Nonagricultural and Natural Vegetation", .na),
   ("Not Mapped", .na), ("Other Land", .na),
   ("Prime Farmland", .na),
   ("Rural Residential and Rural Commercial", .na),
   ("Unique Farmland", .na),
   ("Urban and Built-up Land", .na), ("Water", .na),
   ("Confined Animal Agriculture", .na),
   ("moderate", .na), ("severe", .na),
   ("Lower 1/3 of PG&E wind speed", .na),
   ("Middle 1/3 of PG&E wind speed", .na),
   ("Top 1/3 of PG&E wind speed", .na),
   ("High", .na), ("Med", .na), ("Low", .na),
   ("Vacant or Disturbed Land", .na),
   ("Rural Residential Land", .na),
   ("Farmland of Local Potential", .na),
   ("Semi-agricultural and Rural Commercial Land", .na),
   ("Water Area", .na)]

/-- Lookup `df_MCE_corrosion_scores_indexed.loc[label, column]`: association-list
lookup; `none` models the pandas `KeyError` raised on a missing label. -/
def dfLoc (column : List (String × MCECell)) (label : String) :
    Option MCECell :=
  (column.find? (fun p => p.1 = label)).map Prod.snd

/-- Python `float(max(a, b))` applied to two table cells.  Comparing the
`"ERROR_MCE_N/A"` string with a number raises `TypeError`; `max` of two
copies of the sentinel returns the string and `float` of it raises
`ValueError`. -/
def pyFloatMax : MCECell → MCECell → PyResult ℚ
  | .val a, .val b => .ok (max a b)
  | .na, .val _ => .exn "TypeError"
  | .val _, .na => .exn "TypeError"
  | .na, .na => .exn "ValueError"

/-- Soil-corrosivity reduction factor of the main loop (source lines
417-432): look up the agriculture and wetland scores, then compute
`float(max(score_agriculture, score_wetland))/2*parameters.r_cor`.
The subsequent `math.isnan` guard maps NaN to `0`; a rational value is
never NaN, which mirrors the fact that no cell of the table is a float
NaN. -/
def soil_corrosivity_red_factor (AGRICULTURE WETLAND_TYPE : String)
    (r_cor : ℚ) : PyResult ℚ :=
  match dfLoc AGRICULTURE_column AGRICULTURE with
  | none => .exn "KeyError"
  | some score_agriculture =>
    match dfLoc WETLAND_TYPE_column WETLAND_TYPE with
    | none => .exn "KeyError"
    | some score_wetland =>
      match pyFloatMax score_agriculture score_wetland with
      | .exn e => .exn e
      | .ok m => .ok (m / 2 * r_cor)

/-! ## Capacity-distribution columns (source lines 758-781)

The `mean_*`/`stddev_*` columns are products of the per-family strength
ratio, design ratio, cov, and a nominal-strength constant: `mu_steel` for
the five always-steel families, and the per-asset `mu` column (line 772:
`mu_steel if MATERIAL_FLAG == "STEEL" else mu_wood`) for the three
material-dependent families. -/

/-- The per-asset `mu` column (source line 772). -/
noncomputable def mu_column (MATERIAL_FLAG : String) (mu_steel mu_wood : ℝ) : ℝ :=
  if MATERIAL_FLAG = "STEEL" then mu_steel else mu_wood

/-- Column `mean_ANCHOR` (source line 759). -/
noncomputable def mean_ANCHOR (s_ratio d_ratio mu_steel : ℝ) : ℝ :=
  s_ratio * d_ratio * mu_steel

/-- Column `stddev_ANCHOR` (source line 760). -/
noncomputable def stddev_ANCHOR (s_ratio d_ratio cov mu_steel : ℝ) : ℝ :=
  s_ratio * d_ratio * cov * mu_steel

/-- Column `mean_GUY` (source line 761). -/
noncomputable def mean_GUY (s_ratio d_ratio mu_steel : ℝ) : ℝ :=
  s_ratio * d_ratio * mu_steel

/-- Column `stddev_GUY` (source line 762). -/
noncomputable def stddev_GUY (s_ratio d_ratio cov mu_steel : ℝ) : ℝ :=
  s_ratio * d_ratio * cov * mu_steel

/-- Column `mean_CONDUCTOR` (source line 763). -/
noncomputable def mean_CONDUCTOR (s_ratio d_ratio mu_steel : ℝ) : ℝ :=
  s_ratio * d_ratio * mu_steel

/-- Column `stddev_CONDUCTOR` (source line 764). -/
noncomputable def stddev_CONDUCTOR (s_ratio d_ratio cov mu_steel : ℝ) : ℝ :=
  s_ratio * d_ratio * cov * mu_steel

/-- Column `mean_OGW` (source line 765). -/
noncomputable def mean_OGW (s_ratio d_ratio mu_steel : ℝ) : ℝ :=
  s_ratio * d_ratio * mu_steel

/-- Column `stddev_OGW` (source line 766). -/
noncomputable def stddev_OGW (s_ratio d_ratio cov mu_steel : ℝ) : ℝ :=
  s_ratio * d_ratio * cov * mu_steel

/-- Column `mean_HI` (source line 767). -/
noncomputable def mean_HI (s_ratio d_ratio mu_steel : ℝ) : ℝ :=
  s_ratio * d_ratio * mu_steel

/-- Column `stddev_HI` (source line 768). -/
noncomputable def stddev_HI (s_ratio d_ratio cov mu_steel : ℝ) : ℝ :=
  s_ratio * d_ratio * cov * mu_steel

/-- Column `mean_FOUNDATION` (source line 774); `mu` is the per-asset column. -/
noncomputable def mean_FOUNDATION (s_ratio d_ratio mu : ℝ) : ℝ :=
  s_ratio * d_ratio * mu

/-- Column `stddev_FOUNDATION` (source line 775). -/
noncomputable def stddev_FOUNDATION (s_ratio d_ratio cov mu : ℝ) : ℝ :=
  s_ratio * d_ratio * cov * mu

/-- Column `mean_STUB_SPLICE` (source line 776). -/
noncomputable def mean_STUB_SPLICE (s_ratio d_ratio mu : ℝ) : ℝ :=
  s_ratio * d_ratio * mu

/-- Column `stddev_STUB_SPLICE` (source lines 777-778). -/
noncomputable def stddev_STUB_SPLICE (s_ratio d_ratio cov mu : ℝ) : ℝ :=
  s_ratio * d_ratio * cov * mu

/-- Column `mean_STRUCT_ATTACH` (source line 779). -/
noncomputable def mean_STRUCT_ATTACH (s_ratio d_ratio mu : ℝ) : ℝ :=
  s_ratio * d_ratio * mu

/-- Column `stddev_STRUCT_ATTACH` (source lines 780-781). -/
noncomputable def stddev_STRUCT_ATTACH (s_ratio d_ratio cov mu : ℝ) : ℝ :=
  s_ratio * d_ratio * cov * mu

/-! ## Fragility-curve engine (source lines 54-81)

`ComputeProbabilityFailureLogNorm` combines the eight per-component
lognormal CDF values at a given wind speed.  The scipy call
`lognorm.cdf(wspeed, m, s)` is an external library function; the
combination is therefore embedded with the CDF as an explicit functional
parameter `cdf wspeed m s`, instantiated below with the mathematical CDF
of `scipy.stats.lognorm` (shape `m`, location `s`, unit scale).
`np.maximum.reduce` of the eight values is the left-nested binary
maximum. -/

/-- Function `ComputeProbabilityFailureLogNorm` (source lines 54-81), with the
lognormal CDF abstracted as a parameter.  Argument order follows the
source: ANCHOR, GUY, FOUNDATION, STUB_SPLICE, STRUCT_ATTACH, CONDUCTOR,
OGW, HI. -/
noncomputable def ComputeProbabilityFailureLogNorm
    (cdf : ℝ → ℝ → ℝ → ℝ) (wspeed
     mean_ANCHOR stddev_ANCHOR mean_GUY stddev_GUY
     mean_FOUNDATION stddev_FOUNDATION mean_STUB_SPLICE stddev_STUB_SPLICE
     mean_STRUCT_ATTACH stddev_STRUCT_ATTACH mean_CONDUCTOR stddev_CONDUCTOR
     mean_OGW stddev_OGW mean_HI stddev_HI : ℝ) : ℝ :=
  ((1 - (1 - cdf wspeed mean_ANCHOR stddev_ANCHOR) *
        (1 - cdf wspeed mean_GUY stddev_GUY) *
        (1 - cdf wspeed mean_FOUNDATION stddev_FOUNDATION) *
        (1 - cdf wspeed mean_STUB_SPLICE stddev_STUB_SPLICE) *
        (1 - cdf wspeed mean_STRUCT_ATTACH stddev_STRUCT_ATTACH) *
        (1 - cdf wspeed mean_CONDUCTOR stddev_CONDUCTOR) *
        (1 - cdf wspeed mean_OGW stddev_OGW) *
        (1 - cdf wspeed mean_HI stddev_HI)) +
    max (max (max (max (max (max (max
      (cdf wspeed mean_ANCHOR stddev_ANCHOR)
      (cdf wspeed mean_GUY stddev_GUY))
      (cdf wspeed mean_FOUNDATION stddev_FOUNDATION))
      (cdf wspeed mean_STUB_SPLICE stddev_STUB_SPLICE))
      (cdf wspeed mean_STRUCT_ATTACH stddev_STRUCT_ATTACH))
      (cdf wspeed mean_CONDUCTOR stddev_CONDUCTOR))
      (cdf wspeed mean_OGW stddev_OGW))
      (cdf wspeed mean_HI stddev_HI)) / 2

/-- CDF of the standard normal distribution. -/
noncomputable def stdNormalCdf : ℝ → ℝ :=
  ProbabilityTheory.cdf (ProbabilityTheory.gaussianReal 0 1)

/-- Mathematical CDF computed by `scipy.stats.lognorm.cdf(x, s, loc)`
(shape `s`, location `loc`, unit scale) on its valid domain `0 < s`:
`Φ(log(x - loc) / s)` for `x > loc`, and `0` at or below the location. -/
noncomputable def lognorm_cdf (x s loc : ℝ) : ℝ :=
  if x ≤ loc then 0 else stdNormalCdf (Real.log (x - loc) / s)

/-- The blended system probability of failure as written in the
specification: `[(1 - ∏ i (1 - F i)) + max_i (F i)] / 2` over the eight
component CDF values. -/
noncomputable def spec_p_fail (F : Fin 8 → ℝ) : ℝ :=
  ((1 - ∏ i, (1 - F i)) +
    Finset.univ.sup' ⟨0, Finset.mem_univ 0⟩ F) / 2

/-! ## Helper lemmas about the fragility engine -/

lemma stdNormalCdf_nonneg (x : ℝ) : 0 ≤ stdNormalCdf x :=
  ProbabilityTheory.cdf_nonneg _ x

lemma stdNormalCdf_le_one (x : ℝ) : stdNormalCdf x ≤ 1 :=
  ProbabilityTheory.cdf_le_one _ x

lemma stdNormalCdf_mono : Monotone stdNormalCdf :=
  ProbabilityTheory.monotone_cdf _

lemma lognorm_cdf_nonneg (x s loc : ℝ) : 0 ≤ lognorm_cdf x s loc := by
  unfold lognorm_cdf
  split
  · exact le_refl 0
  · exact stdNormalCdf_nonneg _

lemma lognorm_cdf_le_one (x s loc : ℝ) : lognorm_cdf x s loc ≤ 1 := by
  unfold lognorm_cdf
  split
  · norm_num
  · exact stdNormalCdf_le_one _

lemma lognorm_cdf_mono {s : ℝ} (loc : ℝ) (hs : 0 < s) {x y : ℝ}
    (hxy : x ≤ y) : lognorm_cdf x s loc ≤ lognorm_cdf y s loc := by
  unfold lognorm_cdf
  by_cases hx : x ≤ loc
  · rw [if_pos hx]
    split
    · exact le_refl 0
    · exact stdNormalCdf_nonneg _
  · rw [if_neg hx, if_neg (by linarith)]
    apply stdNormalCdf_mono
    have hx' : (0:ℝ) < x - loc := by linarith [lt_of_not_le hx]
    gcongr

lemma max8_eq_sup' (F : Fin 8 → ℝ) :
    max (max (max (max (max (max (max (F 0) (F 1)) (F 2)) (F 3)) (F 4))
      (F 5)) (F 6)) (F 7)
      = Finset.univ.sup' ⟨0, Finset.mem_univ 0⟩ F := by
  apply le_antisymm
  · repeat' apply max_le
    all_goals exact Finset.le_sup' F (Finset.mem_univ _)
  · apply Finset.sup'_le
    intro i _
    fin_cases i <;> simp [le_max_iff]

lemma compute_eq_spec (cdf : ℝ → ℝ → ℝ → ℝ) (w : ℝ) (m s : Fin 8 → ℝ) :
    ComputeProbabilityFailureLogNorm cdf w (m 0) (s 0) (m 1) (s 1)
      (m 2) (s 2) (m 3) (s 3) (m 4) (s 4) (m 5) (s 5) (m 6) (s 6)
      (m 7) (s 7)
      = spec_p_fail (fun i => cdf w (m i) (s i)) := by
  rw [ComputeProbabilityFailureLogNorm, spec_p_fail, Fin.prod_univ_eight,
    ← max8_eq_sup']

lemma spec_p_fail_mono {p q : Fin 8 → ℝ} (h1 : ∀ i, q i ≤ 1)
    (hpq : ∀ i, p i ≤ q i) : spec_p_fail p ≤ spec_p_fail q := by
  unfold spec_p_fail
  have hprod : ∏ i, (1 - q i) ≤ ∏ i, (1 - p i) :=
    Finset.prod_le_prod (fun i _ => by linarith [h1 i])
      (fun i _ => by linarith [hpq i])
  have hsup : Finset.univ.sup' ⟨0, Finset.mem_univ 0⟩ p ≤
      Finset.univ.sup' ⟨0, Finset.mem_univ 0⟩ q :=
    Finset.sup'_mono_fun (fun i _ => hpq i)
  linarith

lemma spec_p_fail_nonneg {q : Fin 8 → ℝ} (h0 : ∀ i, 0 ≤ q i)
    (h1 : ∀ i, q i ≤ 1) : 0 ≤ spec_p_fail q := by
  unfold spec_p_fail
  have hp : ∏ i, (1 - q i) ≤ 1 :=
    Finset.prod_le_one (fun i _ => by linarith [h1 i])
      (fun i _ => by linarith [h0 i])
  have hsup : (0:ℝ) ≤ Finset.univ.sup' ⟨0, Finset.mem_univ 0⟩ q :=
    le_trans (h0 0) (Finset.le_sup' q (Finset.mem_univ 0))
  linarith

lemma spec_p_fail_le_one {q : Fin 8 → ℝ}
    (h1 : ∀ i, q i ≤ 1) : spec_p_fail q ≤ 1 := by
  unfold spec_p_fail
  have hp : (0:ℝ) ≤ ∏ i, (1 - q i) :=
    Finset.prod_nonneg (fun i _ => by linarith [h1 i])
  have hsup : Finset.univ.sup' ⟨0, Finset.mem_univ 0⟩ q ≤ 1 :=
    Finset.sup'_le _ _ (fun i _ => h1 i)
  linarith

/-! ## Claim theorems: fragility engine -/

/-- C5: for every wind speed and every set of eight component
(mean, stddev) pairs, the system probability of failure equals the
blended formula `[(1 - ∏ i (1 - CDF i)) + max_i CDF i] / 2`, and it does
not reduce to the independence-only term or to the max-only term alone
(shown at eight identical components with CDF value `1/2`, as at
mean = 100, stddev = 10, wind speed 100). -/
theorem C5_blended_combination_formula :
    (∀ (cdf : ℝ → ℝ → ℝ → ℝ) (w : ℝ) (m s : Fin 8 → ℝ),
      ComputeProbabilityFailureLogNorm cdf w (m 0) (s 0) (m 1) (s 1)
        (m 2) (s 2) (m 3) (s 3) (m 4) (s 4) (m 5) (s 5) (m 6) (s 6)
        (m 7) (s 7)
        = spec_p_fail (fun i => cdf w (m i) (s i)))
    ∧ ComputeProbabilityFailureLogNorm (fun _ _ _ => 1/2) 100
        100 10 100 10 100 10 100 10 100 10 100 10 100 10 100 10
        ≠ 1 - ∏ _i : Fin 8, (1 - (1:ℝ)/2)
    ∧ ComputeProbabilityFailureLogNorm (fun _ _ _ => 1/2) 100
        100 10 100 10 100 10 100 10 100 10 100 10 100 10 100 10
        ≠ (1:ℝ)/2 := by
  refine ⟨fun cdf w m s => compute_eq_spec cdf w m s, ?_, ?_⟩
  · simp only [ComputeProbabilityFailureLogNorm, Finset.prod_const,
      Finset.card_univ, Fintype.card_fin, max_self]
    norm_num
  · simp only [ComputeProbabilityFailureLogNorm, max_self]
    norm_num

/-- C6: for fixed component parameters with valid (positive) lognormal
shapes, the computed probability of failure is monotone non-decreasing in
wind speed. -/
theorem C6_p_fail_monotone_in_windspeed (m s : Fin 8 → ℝ) (v1 v2 : ℝ)
    (hm : ∀ i, 0 < m i) (hv : v1 < v2) :
    ComputeProbabilityFailureLogNorm lognorm_cdf v1 (m 0) (s 0) (m 1) (s 1)
      (m 2) (s 2) (m 3) (s 3) (m 4) (s 4) (m 5) (s 5) (m 6) (s 6)
      (m 7) (s 7)
      ≤ ComputeProbabilityFailureLogNorm lognorm_cdf v2 (m 0) (s 0)
        (m 1) (s 1) (m 2) (s 2) (m 3) (s 3) (m 4) (s 4) (m 5) (s 5)
        (m 6) (s 6) (m 7) (s 7) := by
  rw [compute_eq_spec, compute_eq_spec]
  exact spec_p_fail_mono (fun i => lognorm_cdf_le_one _ _ _)
    (fun i => lognorm_cdf_mono (s i) (hm i) hv.le)

/-- C6 witness: concrete instance of the monotonicity theorem at
means 1, stddevs 1, wind speeds 0 < 1. -/
theorem C6_p_fail_monotone_witness :
    (∀ _i : Fin 8, (0:ℝ) < 1) ∧ (0:ℝ) < 1 ∧
    ComputeProbabilityFailureLogNorm lognorm_cdf 0
      1 1 1 1 1 1 1 1 1 1 1 1 1 1 1 1
      ≤ ComputeProbabilityFailureLogNorm lognorm_cdf 1
        1 1 1 1 1 1 1 1 1 1 1 1 1 1 1 1 :=
  ⟨fun _ => by norm_num, by norm_num,
    C6_p_fail_monotone_in_windspeed (fun _ => 1) (fun _ => 1) 0 1
      (fun _ => by norm_num) (by norm_num)⟩

/-- C7: for all valid inputs (positive lognormal shapes), the computed
probability of failure lies between 0 and 1 inclusive. -/
theorem C7_p_fail_in_unit_interval (m s : Fin 8 → ℝ) (v : ℝ)
    (_hm : ∀ i, 0 < m i) :
    0 ≤ ComputeProbabilityFailureLogNorm lognorm_cdf v (m 0) (s 0)
        (m 1) (s 1) (m 2) (s 2) (m 3) (s 3) (m 4) (s 4) (m 5) (s 5)
        (m 6) (s 6) (m 7) (s 7)
    ∧ ComputeProbabilityFailureLogNorm lognorm_cdf v (m 0) (s 0)
        (m 1) (s 1) (m 2) (s 2) (m 3) (s 3) (m 4) (s 4) (m 5) (s 5)
        (m 6) (s 6) (m 7) (s 7) ≤ 1 := by
  rw [compute_eq_spec]
  exact ⟨spec_p_fail_nonneg (fun i => lognorm_cdf_nonneg _ _ _)
      (fun i => lognorm_cdf_le_one _ _ _),
    spec_p_fail_le_one (fun i => lognorm_cdf_le_one _ _ _)⟩

/-- C7 witness: concrete instance of the bounds theorem at means 1,
stddevs 1, wind speed 50. -/
theorem C7_p_fail_in_unit_interval_witness :
    (∀ _i : Fin 8, (0:ℝ) < 1) ∧
    (0 ≤ ComputeProbabilityFailureLogNorm lognorm_cdf 50
        1 1 1 1 1 1 1 1 1 1 1 1 1 1 1 1
    ∧ ComputeProbabilityFailureLogNorm lognorm_cdf 50
        1 1 1 1 1 1 1 1 1 1 1 1 1 1 1 1 ≤ 1) :=
  ⟨fun _ => by norm_num,
    C7_p_fail_in_unit_interval (fun _ => 1) (fun _ => 1) 50
      (fun _ => by norm_num)⟩

/-! ## Claim theorems: design-life model, factors, capacity columns -/

/-- C1: the documented negative-outage branch
`adjustment = (1 - RSS(others)) * (1 - outage)` does NOT hold for the OGW
and HARDWARE_INSULATORS families: with soil = 3/5 and atm = 4/5
(so RSS = 1) and outage = -1/10, the code computes
`1 - RSS * (1 - outage) = -1/10` while the documented formula gives
`(1 - RSS) * (1 - outage) = 0`. -/
theorem C1_ogw_hi_negative_branch_mismatch :
    (DLife_WoodSteel_OGW 10 (fun _ _ => 1) "OGW_CD"
      (-(1/10)) (4/5) (3/5)).design_life_adjustment = -(1/10)
    ∧ (DLife_WoodSteel_HI 10 (fun _ _ => 1) "HARDWARE_INSUL_CD"
      (-(1/10)) (4/5) (3/5)).design_life_adjustment = -(1/10)
    ∧ spec_adjustment_OGW_HI (-(1/10)) (4/5) (3/5) = 0
    ∧ (-(1/10) : ℝ) ≠ 0 := by
  have hs : Real.sqrt (((3:ℝ)/5) ^ 2 + ((4:ℝ)/5) ^ 2) = 1 := by
    rw [show ((3:ℝ)/5) ^ 2 + ((4:ℝ)/5) ^ 2 = 1 by norm_num, Real.sqrt_one]
  have hneg : (-(1/10) : ℝ) < 0 := by norm_num
  refine ⟨?_, ?_, ?_, by norm_num⟩
  · show (if (-(1/10) : ℝ) < 0 then
        1 - Real.sqrt (((3:ℝ)/5) ^ 2 + ((4:ℝ)/5) ^ 2) * (1 - -(1/10))
      else 1 - Real.sqrt (((3:ℝ)/5) ^ 2 + ((4:ℝ)/5) ^ 2 + (-(1/10)) ^ 2))
      = -(1/10)
    rw [if_pos hneg, hs]; norm_num
  · show (if (-(1/10) : ℝ) < 0 then
        1 - Real.sqrt (((3:ℝ)/5) ^ 2 + ((4:ℝ)/5) ^ 2) * (1 - -(1/10))
      else 1 - Real.sqrt (((3:ℝ)/5) ^ 2 + ((4:ℝ)/5) ^ 2 + (-(1/10)) ^ 2))
      = -(1/10)
    rw [if_pos hneg, hs]; norm_num
  · unfold spec_adjustment_OGW_HI
    rw [if_pos hneg, hs]; norm_num

/-- C2: UNKNOWN/OTHER materials are claimed to reproduce the STEEL
computation for all eight families including GUY, but the UNKNOWN/OTHER
chain compares `entry == "GUY"` while the theme label is `"GUY_CD"`, so
GUY falls through to the AllOthers formula: with wear-fatigue = 3/10 and
all other factors 0, the STEEL branch yields adjustment 1 while the
UNKNOWN/OTHER branch yields 7/10, for every constants table. -/
theorem C2_unknown_material_guy_divergence :
    ∀ consts : String → Fin 3 → ℝ,
    (steel_branch_dlife consts "GUY_CD" 10 0 (3/10) 0 0 0).design_life_adjustment
      = 1
    ∧ (unknown_branch_dlife consts "GUY_CD" 10 0 (3/10) 0 0 0).design_life_adjustment
      = 7/10 := by
  intro consts
  have h0 : ¬ ((0:ℝ) < 0) := by norm_num
  constructor
  · show (DLife_WoodSteel_Guy 10 consts "GUY_CD" 0 0).design_life_adjustment = 1
    show (if (0:ℝ) < 0 then (1 - (0:ℝ)) * (1 - 0)
      else 1 - Real.sqrt ((0:ℝ) ^ 2 + (0:ℝ) ^ 2)) = 1
    rw [if_neg h0, show ((0:ℝ) ^ 2 + (0:ℝ) ^ 2) = 0 by norm_num,
      Real.sqrt_zero]
    norm_num
  · show (DLife_WoodSteel_AllOthers 10 consts "GUY_CD" 0 0 (3/10)).design_life_adjustment
      = 7/10
    show (if (0:ℝ) < 0 then
        (1 - Real.sqrt (((3:ℝ)/10) ^ 2 + (0:ℝ) ^ 2)) * (1 - 0)
      else 1 - Real.sqrt (((3:ℝ)/10) ^ 2 + (0:ℝ) ^ 2 + (0:ℝ) ^ 2)) = 7/10
    rw [if_neg h0,
      show ((3:ℝ)/10) ^ 2 + (0:ℝ) ^ 2 + (0:ℝ) ^ 2 = ((3:ℝ)/10) ^ 2 by norm_num,
      Real.sqrt_sq (by norm_num : (0:ℝ) ≤ 3/10)]
    norm_num

/-- C3: lookup of an unmapped land-use category does not resolve to a
zero factor: `.loc` on a label absent from the score index raises
`KeyError`, and an in-table category whose agriculture cell is the
`"ERROR_MCE_N/A"` sentinel raises `TypeError` (string-number `max`) or
`ValueError` (`float` of the sentinel).  A mapped pair does produce a
numeric factor. -/
theorem C3_unmapped_category_raises :
    soil_corrosivity_red_factor "Open Space" "Blank" (1/10)
      = PyResult.exn "KeyError"
    ∧ soil_corrosivity_red_factor "Blank" "Blank" (1/10)
      = PyResult.exn "TypeError"
    ∧ soil_corrosivity_red_factor "Blank" "heavy" (1/10)
      = PyResult.exn "ValueError"
    ∧ soil_corrosivity_red_factor "Prime Farmland" "Blank" (1/10)
      = PyResult.ok (1/10) := by
  refine ⟨by decide, by decide, by decide, ?_⟩
  have h1 : dfLoc AGRICULTURE_column "Prime Farmland"
      = some (MCECell.val 2) := by decide
  have h2 : dfLoc WETLAND_TYPE_column "Blank"
      = some (MCECell.val 0) := by decide
  rw [soil_corrosivity_red_factor, h1, h2]
  norm_num [pyFloatMax]

/-- C4: a zero adjusted design life is reachable (OGW with soil = 3/5,
atm = 4/5, outage = 0 gives adjustment 0, hence adjusted life 0 for any
constants table), and there the cov expression evaluates under numpy
semantics to positive infinity - no error is raised or flagged. -/
theorem C4_zero_adjusted_life_cov_infinite :
    (∀ consts : String → Fin 3 → ℝ,
      (DLife_WoodSteel_OGW 30 consts "OGW_CD" 0 (4/5) (3/5)).design_life_adjusted
        = 0)
    ∧ cov_float (1/10) (1/5) 30 0 = NpFloat.pinf := by
  constructor
  · intro consts
    show consts "OGW_CD" 2 * (if (0:ℝ) < 0 then
        1 - Real.sqrt (((3:ℝ)/5) ^ 2 + ((4:ℝ)/5) ^ 2) * (1 - 0)
      else 1 - Real.sqrt (((3:ℝ)/5) ^ 2 + ((4:ℝ)/5) ^ 2 + (0:ℝ) ^ 2)) = 0
    rw [if_neg (by norm_num : ¬ ((0:ℝ) < 0)),
      show ((3:ℝ)/5) ^ 2 + ((4:ℝ)/5) ^ 2 + (0:ℝ) ^ 2 = 1 by norm_num,
      Real.sqrt_one]
    ring
  · norm_num [cov_float, npDiv, npMulFin, npAddFin]

/-- C8: the strength ratio from a condition code `c` is 1 for `c = 0` or
missing, exactly 0.92 for `c = 2`, and `1 - (c - 1)/6` otherwise; in
particular code 0 gives 1, code 2 gives 0.92 and code 7 gives 0. -/
theorem C8_strength_ratio_formula (c : ℚ) (hc0 : c ≠ 0) (hc2 : c ≠ 2) :
    strength_ratio none = 1
    ∧ strength_ratio (some 0) = 1
    ∧ strength_ratio (some 2) = 0.92
    ∧ strength_ratio (some c) = 1 - (c - 1) / 6
    ∧ strength_ratio (some 7) = 0 := by
  refine ⟨rfl, by norm_num [strength_ratio], by norm_num [strength_ratio],
    ?_, by norm_num [strength_ratio]⟩
  simp [strength_ratio, hc0, hc2]

/-- C8 witness: the formula instantiated at condition code 5. -/
theorem C8_strength_ratio_witness :
    (5:ℚ) ≠ 0 ∧ (5:ℚ) ≠ 2 ∧
    (strength_ratio none = 1
     ∧ strength_ratio (some 0) = 1
     ∧ strength_ratio (some 2) = 0.92
     ∧ strength_ratio (some 5) = 1 - (5 - 1) / 6
     ∧ strength_ratio (some 7) = 0) :=
  ⟨by norm_num, by norm_num,
    C8_strength_ratio_formula 5 (by norm_num) (by norm_num)⟩

/-- C9: every capacity column satisfies `mean = s_ratio * d_ratio * mu`
and `stddev = mean * cov`, with `mu` the steel nominal-strength constant
for ANCHOR, GUY, CONDUCTOR, OGW, HARDWARE_INSULATORS (the material flag
does not enter those columns), and for FOUNDATION, STUB_SPLICE and
STRUCT_ATTACH the steel constant when the flag is STEEL and the wood
constant otherwise. -/
theorem C9_capacity_distribution_columns
    (s_ratio d_ratio cov mu_steel mu_wood : ℝ) (MATERIAL_FLAG : String) :
    (mean_ANCHOR s_ratio d_ratio mu_steel = s_ratio * d_ratio * mu_steel
     ∧ stddev_ANCHOR s_ratio d_ratio cov mu_steel
        = mean_ANCHOR s_ratio d_ratio mu_steel * cov)
    ∧ (mean_GUY s_ratio d_ratio mu_steel = s_ratio * d_ratio * mu_steel
     ∧ stddev_GUY s_ratio d_ratio cov mu_steel
        = mean_GUY s_ratio d_ratio mu_steel * cov)
    ∧ (mean_CONDUCTOR s_ratio d_ratio mu_steel = s_ratio * d_ratio * mu_steel
     ∧ stddev_CONDUCTOR s_ratio d_ratio cov mu_steel
        = mean_CONDUCTOR s_ratio d_ratio mu_steel * cov)
    ∧ (mean_OGW s_ratio d_ratio mu_steel = s_ratio * d_ratio * mu_steel
     ∧ stddev_OGW s_ratio d_ratio cov mu_steel
        = mean_OGW s_ratio d_ratio mu_steel * cov)
    ∧ (mean_HI s_ratio d_ratio mu_steel = s_ratio * d_ratio * mu_steel
     ∧ stddev_HI s_ratio d_ratio cov mu_steel
        = mean_HI s_ratio d_ratio mu_steel * cov)
    ∧ (mean_FOUNDATION s_ratio d_ratio (mu_column MATERIAL_FLAG mu_steel mu_wood)
        = s_ratio * d_ratio *
          (if MATERIAL_FLAG = "STEEL" then mu_steel else mu_wood)
     ∧ stddev_FOUNDATION s_ratio d_ratio cov (mu_column MATERIAL_FLAG mu_steel mu_wood)
        = mean_FOUNDATION s_ratio d_ratio (mu_column MATERIAL_FLAG mu_steel mu_wood) * cov)
    ∧ (mean_STUB_SPLICE s_ratio d_ratio (mu_column MATERIAL_FLAG mu_steel mu_wood)
        = s_ratio * d_ratio *
          (if MATERIAL_FLAG = "STEEL" then mu_steel else mu_wood)
     ∧ stddev_STUB_SPLICE s_ratio d_ratio cov (mu_column MATERIAL_FLAG mu_steel mu_wood)
        = mean_STUB_SPLICE s_ratio d_ratio (mu_column MATERIAL_FLAG mu_steel mu_wood) * cov)
    ∧ (mean_STRUCT_ATTACH s_ratio d_ratio (mu_column MATERIAL_FLAG mu_steel mu_wood)
        = s_ratio * d_ratio *
          (if MATERIAL_FLAG = "STEEL" then mu_steel else mu_wood)
     ∧ stddev_STRUCT_ATTACH s_ratio d_ratio cov (mu_column MATERIAL_FLAG mu_steel mu_wood)
        = mean_STRUCT_ATTACH s_ratio d_ratio (mu_column MATERIAL_FLAG mu_steel mu_wood) * cov) := by
  unfold mean_ANCHOR stddev_ANCHOR mean_GUY stddev_GUY mean_CONDUCTOR
    stddev_CONDUCTOR mean_OGW stddev_OGW mean_HI stddev_HI
    mean_FOUNDATION stddev_FOUNDATION mean_STUB_SPLICE stddev_STUB_SPLICE
    mean_STRUCT_ATTACH stddev_STRUCT_ATTACH mu_column
  exact ⟨⟨rfl, by ring⟩, ⟨rfl, by ring⟩, ⟨rfl, by ring⟩, ⟨rfl, by ring⟩,
    ⟨rfl, by ring⟩, ⟨rfl, by ring⟩, ⟨rfl, by ring⟩, ⟨rfl, by ring⟩⟩

/-- C10: the linear strength-ratio branch is not clamped: every condition
code above 7 yields a strictly negative ratio (code 8 gives -1/6) and
hence a negative capacity mean for a positive nominal strength; for
integer codes the ratio lies in [0, 1] exactly for codes 0 through 7. -/
theorem C10_strength_ratio_unclamped (c : ℚ) (k : ℤ) (mu_steel : ℝ)
    (hc : 7 < c) (hmu : 0 < mu_steel) :
    strength_ratio (some c) < 0
    ∧ strength_ratio (some 8) = -(1/6)
    ∧ mean_ANCHOR ((strength_ratio (some c) : ℚ) : ℝ) 1 mu_steel < 0
    ∧ ((0 ≤ strength_ratio (some (k : ℚ))
        ∧ strength_ratio (some (k : ℚ)) ≤ 1) ↔ (0 ≤ k ∧ k ≤ 7)) := by
  have hc0 : c ≠ 0 := by intro h; rw [h] at hc; norm_num at hc
  have hc2 : c ≠ 2 := by intro h; rw [h] at hc; norm_num at hc
  have hsr : strength_ratio (some c) = 1 - (c - 1) / 6 := by
    simp [strength_ratio, hc0, hc2]
  have hneg : strength_ratio (some c) < 0 := by rw [hsr]; linarith
  refine ⟨hneg, by norm_num [strength_ratio], ?_, ?_⟩
  · have hx : ((strength_ratio (some c) : ℚ) : ℝ) < 0 := by
      exact_mod_cast hneg
    unfold mean_ANCHOR
    have h1 : ((strength_ratio (some c) : ℚ) : ℝ) * 1 * mu_steel
        = ((strength_ratio (some c) : ℚ) : ℝ) * mu_steel := by ring
    rw [h1]
    exact mul_neg_of_neg_of_pos hx hmu
  · by_cases hk0 : k = 0
    · subst hk0
      simp [strength_ratio]
    · by_cases hk2 : k = 2
      · subst hk2
        norm_num [strength_ratio]
      · have hq0 : (k : ℚ) ≠ 0 := by exact_mod_cast hk0
        have hq2 : (k : ℚ) ≠ 2 := by exact_mod_cast hk2
        rw [show strength_ratio (some (k : ℚ)) = 1 - ((k : ℚ) - 1) / 6 by
          simp [strength_ratio, hq0, hq2]]
        constructor
        · rintro ⟨ha, hb⟩
          have h7 : (k : ℚ) ≤ 7 := by linarith
          have h1' : (1 : ℚ) ≤ (k : ℚ) := by linarith
          have hk7 : k ≤ 7 := by exact_mod_cast h7
          have hk1 : 1 ≤ k := by exact_mod_cast h1'
          omega
        · rintro ⟨ha, hb⟩
          have h1k : 1 ≤ k := by omega
          have hq1 : (1 : ℚ) ≤ (k : ℚ) := by exact_mod_cast h1k
          have hq7 : (k : ℚ) ≤ 7 := by exact_mod_cast hb
          constructor <;> linarith

/-- C10 witness: the unclamped-ratio theorem instantiated at condition
code 8, integer code 3 and nominal strength 1. -/
theorem C10_strength_ratio_unclamped_witness :
    (7:ℚ) < 8 ∧ (0:ℝ) < 1 ∧
    (strength_ratio (some 8) < 0
     ∧ strength_ratio (some 8) = -(1/6)
     ∧ mean_ANCHOR ((strength_ratio (some 8) : ℚ) : ℝ) 1 1 < 0
     ∧ ((0 ≤ strength_ratio (some ((3:ℤ) : ℚ))
         ∧ strength_ratio (some ((3:ℤ) : ℚ)) ≤ 1) ↔ (0 ≤ (3:ℤ) ∧ (3:ℤ) ≤ 7))) :=
  ⟨by norm_num, by norm_num,
    C10_strength_ratio_unclamped 8 3 1 (by norm_num) (by norm_num)⟩

end ReliabilityModel
